import Mathlib

/-!
Shallow embedding of the AIS ingestion and reconciliation engine of
`vessel_tracker/vessel_tracker/api/live_vessels.py`.

Conventions of the embedding:
* Python floats are modelled as `ℚ`; Python `None` as `Option.none`.
* A Python dict whose keys may be present-with-None is modelled as a structure
  whose fields have type `Option (Option α)`: the outer `Option` is key
  presence, the inner one nullability.  `dict.get(k)` (which conflates an
  absent key with a `None` value) corresponds to `Option.getD · none`.
* Python truthiness: `0`/`0.0`/`""`/`None` are falsy; everything else truthy.
* The module-level dicts `update_queue` and `vessel_cache` are modelled as
  insertion-ordered association lists, matching CPython dict ordering.
-/

namespace VesselTracker

/-! ### Executable float comparisons

`Rat.add`, `Rat.sub` and friends are `@[irreducible]` in this toolchain and
do not evaluate inside `decide`.  The float comparisons of the source are
therefore embedded as cross-multiplied integer tests on `num`/`den`; the
bridge lemmas below prove each one equal to the intended `ℚ` comparison,
with the constant threshold passed as a fraction `cn / cd`. -/

/-- Executable test for `a - b < cn / cd` (e.g. `current_time - last_update < 30`). -/
def qSubLt (a b : ℚ) (cn : Int) (cd : Nat) : Bool :=
  decide ((a.num * b.den - b.num * a.den) * cd < cn * ((a.den : Int) * b.den))

/-- Executable test for `a - b > cn / cd` (e.g. `current_time - last_update > 300`). -/
def qSubGt (a b : ℚ) (cn : Int) (cd : Nat) : Bool :=
  decide (cn * ((a.den : Int) * b.den) < (a.num * b.den - b.num * a.den) * cd)

/-- Executable test for `|a - b| > cn / cd` (e.g. `abs(lat1 - lat2) > 0.001`). -/
def qAbsSubGt (a b : ℚ) (cn : Int) (cd : Nat) : Bool :=
  decide (cn * ((a.den : Int) * b.den) < |a.num * b.den - b.num * a.den| * cd)

/-- The difference of two rationals as an explicit integer fraction. -/
theorem sub_eq_cross (a b : ℚ) :
    a - b = ((a.num * b.den - b.num * a.den : ℤ) : ℚ) / (((a.den : ℤ) * b.den : ℤ) : ℚ) := by
  have hda : ((a.den : ℚ)) ≠ 0 := Nat.cast_ne_zero.mpr a.den_pos.ne'
  have hdb : ((b.den : ℚ)) ≠ 0 := Nat.cast_ne_zero.mpr b.den_pos.ne'
  have ha : a * (a.den : ℚ) = (a.num : ℚ) := by
    nth_rewrite 1 [← Rat.num_div_den a]
    exact div_mul_cancel₀ _ hda
  have hb : b * (b.den : ℚ) = (b.num : ℚ) := by
    nth_rewrite 1 [← Rat.num_div_den b]
    exact div_mul_cancel₀ _ hdb
  rw [eq_div_iff (by push_cast; exact mul_ne_zero hda hdb)]
  push_cast
  calc (a - b) * ((a.den : ℚ) * (b.den : ℚ))
      = a * (a.den : ℚ) * (b.den : ℚ) - b * (b.den : ℚ) * (a.den : ℚ) := by ring
    _ = (a.num : ℚ) * (b.den : ℚ) - (b.num : ℚ) * (a.den : ℚ) := by rw [ha, hb]

/-- Bridge: `qSubLt` decides the comparison `a - b < cn / cd`. -/
theorem qSubLt_iff (a b : ℚ) (cn : Int) (cd : Nat) (hcd : 0 < cd) :
    qSubLt a b cn cd = true ↔ a - b < (cn : ℚ) / (cd : ℚ) := by
  have hab : (0:ℚ) < (((a.den : ℤ) * b.den : ℤ) : ℚ) := by
    have ha := a.den_pos; have hb := b.den_pos; positivity
  have hc : (0:ℚ) < (cd : ℚ) := by exact_mod_cast hcd
  rw [qSubLt, decide_eq_true_iff, sub_eq_cross, div_lt_div_iff₀ hab hc]
  constructor
  · intro h; exact_mod_cast h
  · intro h; exact_mod_cast h

/-- Bridge: `qSubGt` decides the comparison `a - b > cn / cd`. -/
theorem qSubGt_iff (a b : ℚ) (cn : Int) (cd : Nat) (hcd : 0 < cd) :
    qSubGt a b cn cd = true ↔ (cn : ℚ) / (cd : ℚ) < a - b := by
  have hab : (0:ℚ) < (((a.den : ℤ) * b.den : ℤ) : ℚ) := by
    have ha := a.den_pos; have hb := b.den_pos; positivity
  have hc : (0:ℚ) < (cd : ℚ) := by exact_mod_cast hcd
  rw [qSubGt, decide_eq_true_iff, sub_eq_cross, div_lt_div_iff₀ hc hab]
  constructor
  · intro h; exact_mod_cast h
  · intro h; exact_mod_cast h

/-- Bridge: `qAbsSubGt` decides the comparison `|a - b| > cn / cd`. -/
theorem qAbsSubGt_iff (a b : ℚ) (cn : Int) (cd : Nat) (hcd : 0 < cd) :
    qAbsSubGt a b cn cd = true ↔ (cn : ℚ) / (cd : ℚ) < |a - b| := by
  have hab : (0:ℚ) < (((a.den : ℤ) * b.den : ℤ) : ℚ) := by
    have ha := a.den_pos; have hb := b.den_pos; positivity
  have hc : (0:ℚ) < (cd : ℚ) := by exact_mod_cast hcd
  rw [qAbsSubGt, decide_eq_true_iff, sub_eq_cross, abs_div,
    abs_of_pos hab, div_lt_div_iff₀ hc hab, ← Int.cast_abs]
  constructor
  · intro h; exact_mod_cast h
  · intro h; exact_mod_cast h

/-! ### Python string primitives on code points -/

/-- Python `s.strip()`: drop leading and trailing whitespace code points. -/
def pyStrip (s : String) : String :=
  String.mk (((s.data.dropWhile Char.isWhitespace).reverse.dropWhile Char.isWhitespace).reverse)

/-- Python `s[:n]`: the first `n` code points. -/
def pySlice (s : String) (n : Nat) : String := String.mk (s.data.take n)

/-- Python `len(s)` in code points. -/
def pyLen (s : String) : Nat := s.data.length

/-- Python `s.startswith(p)`. -/
def pyStartsWith (s p : String) : Bool := p.data.isPrefixOf s.data

/-- Python truthiness of an optional string (`None` and `""` are falsy). -/
def truthyS : Option String → Bool
  | some s => decide (s ≠ "")
  | none => false

/-- Python truthiness of an optional rational (`None` and `0.0` are falsy). -/
def truthyQ : Option ℚ → Bool
  | some q => decide (q ≠ 0)
  | none => false

/-- Python truthiness of an optional integer (`None` and `0` are falsy). -/
def truthyI : Option Int → Bool
  | some n => decide (n ≠ 0)
  | none => false

/-- Python `a or b` on optional integers: `a` when truthy, else `b`. -/
def pyOrI (a b : Option Int) : Option Int := if truthyI a then a else b

/-- Python `a or b` on optional rationals. -/
def pyOrQ (a b : Option ℚ) : Option ℚ := if truthyQ a then a else b

/-- Python `a or b` on optional strings. -/
def pyOrS (a b : Option String) : Option String := if truthyS a then a else b

/-- Python `str(x)` on an optional integer (`str(None) = "None"`). -/
def pyStr : Option Int → String
  | some n => toString n
  | none => "None"

/-- `Message.PositionReport` payload fields read by `process_ais_message`. -/
structure PositionReportMsg where
  UserID : Option Int := none
  Latitude : Option ℚ := none
  Longitude : Option ℚ := none
  Sog : Option ℚ := none
  Cog : Option ℚ := none
  NavigationalStatus : Option Int := none
deriving DecidableEq

/-- `MetaData` side-channel fields read by `process_ais_message`. -/
structure MetaData where
  MMSI : Option Int := none
  ShipName : Option String := none
  latitude : Option ℚ := none
  longitude : Option ℚ := none
deriving DecidableEq

/-- `Message.ShipStaticData` payload fields read by `process_ais_message`. -/
structure ShipStaticDataMsg where
  UserID : Option Int := none
  Name : Option String := none
  Destination : Option String := none
  CallSign : Option String := none
  ImoNumber : Option Int := none
  ShipType : Option Int := none  -- the JSON key is `Type`, a reserved word here
deriving DecidableEq

/-- The `vessel_data` dict built by `process_ais_message` and merged into
`update_queue[mmsi]`.  Outer `Option` = key present in the dict, inner
`Option` = the value may be Python `None`. -/
structure VMsg where
  mmsi : Option (Option Int) := none
  latitude : Option (Option ℚ) := none
  longitude : Option (Option ℚ) := none
  speed : Option (Option ℚ) := none
  course : Option (Option ℚ) := none
  status : Option (Option String) := none
  vessel_name : Option (Option String) := none
  destination : Option (Option String) := none
  call_sign : Option (Option String) := none
  imo_number : Option (Option Int) := none
  vessel_type : Option (Option String) := none
deriving DecidableEq

/-- `get_navigation_status` of `live_vessels.py`. -/
def get_navigation_status (status_code : Int) : String :=
  if status_code = 0 then "Under way using engine"
  else if status_code = 1 then "At anchor"
  else if status_code = 2 then "Not under command"
  else if status_code = 3 then "Restricted manoeuvrability"
  else if status_code = 4 then "Constrained by her draught"
  else if status_code = 5 then "Moored"
  else if status_code = 6 then "Aground"
  else if status_code = 7 then "Engaged in Fishing"
  else if status_code = 8 then "Under way sailing"
  else if status_code = 15 then "Default"
  else "Unknown"

/-- `get_vessel_type` of `live_vessels.py`. -/
def get_vessel_type (type_code : Int) : String :=
  if 30 ≤ type_code ∧ type_code ≤ 32 then "Fishing"
  else if 60 ≤ type_code ∧ type_code ≤ 69 then "Passenger"
  else if 70 ≤ type_code ∧ type_code ≤ 79 then "Cargo"
  else if 80 ≤ type_code ∧ type_code ≤ 89 then "Tanker"
  else "Other"

/-- The `vessel_data` dict built by the `PositionReport` branch of
`process_ais_message`.  Every listed key is present; values follow the
Python `or`-fallback expressions. -/
def normalizePositionReport (position : PositionReportMsg) (metadata : MetaData) : VMsg :=
  { mmsi := some (pyOrI position.UserID metadata.MMSI)
    latitude := some (pyOrQ position.Latitude metadata.latitude)
    longitude := some (pyOrQ position.Longitude metadata.longitude)
    speed := some position.Sog
    course := some position.Cog
    status := some (some (get_navigation_status (position.NavigationalStatus.getD 15)))
    vessel_name := some metadata.ShipName }

/-- The `vessel_data` dict built by the `ShipStaticData` branch of
`process_ais_message`, including the metadata-position attachment. -/
def normalizeShipStaticData (static : ShipStaticDataMsg) (metadata : MetaData) : VMsg :=
  let base : VMsg :=
    { mmsi := some (pyOrI static.UserID metadata.MMSI)
      vessel_name := some (pyOrS static.Name metadata.ShipName)
      destination := some static.Destination
      call_sign := some static.CallSign
      imo_number := some static.ImoNumber
      vessel_type := some (some (get_vessel_type (static.ShipType.getD 0))) }
  if truthyQ metadata.latitude ∧ truthyQ metadata.longitude then
    { base with latitude := some metadata.latitude, longitude := some metadata.longitude }
  else base

/-- One field of Python `dict.update`: a key present in the newer dict wins,
even when its value is `None`; an absent key keeps the older binding. -/
def mField {α : Type} (old new : Option (Option α)) : Option (Option α) :=
  match new with
  | some v => some v
  | none => old

/-- Python `queue_entry.update(vessel_data)`: field-wise `dict.update`. -/
def dictUpdate (q d : VMsg) : VMsg :=
  { mmsi := mField q.mmsi d.mmsi
    latitude := mField q.latitude d.latitude
    longitude := mField q.longitude d.longitude
    speed := mField q.speed d.speed
    course := mField q.course d.course
    status := mField q.status d.status
    vessel_name := mField q.vessel_name d.vessel_name
    destination := mField q.destination d.destination
    call_sign := mField q.call_sign d.call_sign
    imo_number := mField q.imo_number d.imo_number
    vessel_type := mField q.vessel_type d.vessel_type }

/-- Lookup in an insertion-ordered association list (Python dict read). -/
def alistGet {α : Type} : List (String × α) → String → Option α
  | [], _ => none
  | p :: rest, k => if p.1 = k then some p.2 else alistGet rest k

/-- Python dict assignment: replace the binding in place, else append. -/
def alistSet {α : Type} : List (String × α) → String → α → List (String × α)
  | [], k, v => [(k, v)]
  | p :: rest, k, v => if p.1 = k then (k, v) :: rest else p :: alistSet rest k v

/-- `update_queue[mmsi].update(vessel_data)` guarded by
`if vessel_data.get(mmsi)` in `process_ais_message` (`defaultdict(dict)`
supplies an empty dict for a fresh key). -/
def enqueue (queue : List (String × VMsg)) (d : VMsg) : List (String × VMsg) :=
  if truthyI (d.mmsi.getD none) then
    let key := pyStr (d.mmsi.getD none)
    alistSet queue key (dictUpdate ((alistGet queue key).getD {}) d)
  else queue

/-! ### Batch stage: registry records, rate-limit cache, gate and resolver

`update_vessel_ais_batch` reads the queued dicts through `dict.get`, which
conflates an absent key with a `None` value, so the batch stage sees a
flattened view of `VMsg`. -/

/-- A queued `vessel_data` dict as read through `dict.get` by
`update_vessel_ais_batch` and the `prepare_*` helpers. -/
structure VesselData where
  mmsi : Option Int := none
  latitude : Option ℚ := none
  longitude : Option ℚ := none
  speed : Option ℚ := none
  course : Option ℚ := none
  status : Option String := none
  vessel_name : Option String := none
  destination : Option String := none
  call_sign : Option String := none
  imo_number : Option Int := none
  vessel_type : Option String := none
deriving DecidableEq

/-- A registry row as seen by the batch code.  The prefetch query selects
`name, ais_mmsi, ais_last_update, vessel_name, imo_number` only; the two
position columns are listed because `should_update_vessel` reads them with
`.get(ais_last_position_lat, 0)` — on rows coming from that query they are
always `none`, making the default `0` apply. -/
structure VRecord where
  name : String
  ais_mmsi : Option String := none
  ais_last_update : Option ℚ := none
  vessel_name : Option String := none
  imo_number : Option String := none
  ais_last_position_lat : Option ℚ := none
  ais_last_position_lon : Option ℚ := none
deriving DecidableEq

/-- The module-level `vessel_cache` dict: `"vessel_update_<mmsi>"` keys to
last-accepted `time.time()` values, in insertion order. -/
abbrev Cache := List (String × ℚ)

/-- `MAX_CACHE_SIZE = 10000  # Prevent memory leaks`. -/
def MAX_CACHE_SIZE : Nat := 10000

/-- The comparison used by
`sorted(vessel_cache.items(), key=lambda x: x[1], reverse=True)`. -/
def cacheDescLe (a b : String × ℚ) : Bool := decide (b.2 ≤ a.2)

/-- The eviction block of `should_update_vessel`: when the cache exceeds
`MAX_CACHE_SIZE`, keep only the 5000 entries with the greatest timestamps. -/
def evictCache (c : Cache) : Cache :=
  if MAX_CACHE_SIZE < c.length then (c.mergeSort cacheDescLe).take 5000 else c

/-- `should_update_vessel(mmsi, new_data, existing_record)` together with its
side effect on `vessel_cache`: returns the decision and the new cache.
The numeric tests are the executable forms of
`(current_time - last_update) < 30`, `abs(Δ) > 0.001` and
`(current_time - last_update) > 300`. -/
def should_update_vessel (mmsi : String) (new_data : VesselData)
    (existing_record : Option VRecord) (cache : Cache) (current_time : ℚ) :
    Bool × Cache :=
  match existing_record with
  | none => (true, cache)  -- Always insert new vessels
  | some existing =>
    let cache1 := evictCache cache
    let cache_key := "vessel_update_" ++ mmsi
    let last_update := alistGet cache1 cache_key
    if truthyQ last_update = true ∧ qSubLt current_time (last_update.getD 0) 30 1 = true then
      (false, cache1)
    else if truthyQ new_data.latitude = true ∧ truthyQ new_data.longitude = true ∧
        (qAbsSubGt (new_data.latitude.getD 0) (existing.ais_last_position_lat.getD 0) 1 1000 = true ∨
         qAbsSubGt (new_data.longitude.getD 0) (existing.ais_last_position_lon.getD 0) 1 1000 = true) then
      (true, alistSet cache1 cache_key current_time)
    else if truthyQ last_update = false ∨ qSubGt current_time (last_update.getD 0) 300 1 = true then
      (true, alistSet cache1 cache_key current_time)
    else
      (false, cache1)

/-- The SET clause built by `prepare_vessel_update` (`none` = clause absent).
`whereName` is `values["vessel_name"]`, i.e. the `name` key of the row being
updated; the unconditional `ais_last_update`/`modified` wall-clock clauses are
not modelled. -/
structure UpdateStmt where
  whereName : String
  latitude : Option ℚ := none
  longitude : Option ℚ := none
  speed : Option ℚ := none
  course : Option ℚ := none
  status : Option String := none
  destination : Option String := none
  new_vessel_name : Option String := none
  imo_number : Option String := none
deriving DecidableEq

/-- `prepare_vessel_update(mmsi, vessel_data, existing_record)`. -/
def prepare_vessel_update (_mmsi : String) (vessel_data : VesselData)
    (existing_record : VRecord) : UpdateStmt :=
  { whereName := existing_record.name
    latitude := if truthyQ vessel_data.latitude then vessel_data.latitude else none
    longitude := if truthyQ vessel_data.longitude then vessel_data.longitude else none
    speed := vessel_data.speed      -- guarded by `is not None`
    course := vessel_data.course    -- guarded by `is not None`
    status := if truthyS vessel_data.status then vessel_data.status else none
    destination := if truthyS vessel_data.destination then
        some (let d := vessel_data.destination.getD ""
              if 250 < pyLen d then pySlice d 250 else d)
      else none
    new_vessel_name := if truthyS vessel_data.vessel_name = true ∧
        (truthyS existing_record.vessel_name = false ∨
         pyStartsWith (existing_record.vessel_name.getD "") "Unknown Vessel" = true) then
        some (pySlice (pyStrip (vessel_data.vessel_name.getD "")) 140)
      else none
    imo_number := if truthyI vessel_data.imo_number then
        some (toString (vessel_data.imo_number.getD 0))
      else none }

/-- The row built by `prepare_vessel_insert` (fixed defaults such as
`grt`/`dwt`/`owner` and the wall-clock timestamps are not modelled). -/
structure InsertRow where
  vessel_name : String
  imo_number : String
  ais_mmsi : String
  latitude : Option ℚ := none
  longitude : Option ℚ := none
  speed : Option ℚ := none
  course : Option ℚ := none
  status : Option String := none
  destination : Option String := none
deriving DecidableEq

/-- `frappe.db.exists(Vessels, imo_number=imo)` against the registry. -/
def existsImo (reg : List VRecord) (imo : String) : Bool :=
  reg.any (fun r => r.imo_number = some imo)

/-- The candidate sequence of the synthetic-IMO collision loop:
`base, base-1, base-2, …`. -/
def aisCand (base : String) : Nat → String
  | 0 => base
  | Nat.succ c => base ++ "-" ++ toString (c + 1)

/-- The `while frappe.db.exists(...)` loop of `prepare_vessel_insert`,
fuelled: the Python loop is unbounded, but over a fixed finite registry any
fuel ≥ the number of taken candidates gives the result of the loop. -/
def aisImoLoop (reg : List VRecord) (base : String) : Nat → Nat → String
  | 0, counter => aisCand base counter
  | Nat.succ fuel, counter =>
    if existsImo reg (aisCand base counter) then aisImoLoop reg base fuel (counter + 1)
    else aisCand base counter

/-- `prepare_vessel_insert(mmsi, vessel_data)` (the registry stands for the
`frappe.db.exists` lookups). -/
def prepare_vessel_insert (reg : List VRecord) (mmsi : String)
    (vessel_data : VesselData) : InsertRow :=
  let vessel_name_raw := if truthyS vessel_data.vessel_name then vessel_data.vessel_name.getD "" else ""
  let vessel_name1 := if vessel_name_raw ≠ "" then pyStrip vessel_name_raw else "Unknown Vessel " ++ mmsi
  let vessel_name := if vessel_name1 ≠ "" then pySlice vessel_name1 140 else "Unknown Vessel " ++ mmsi
  let imo0 := if truthyI vessel_data.imo_number then
      (if existsImo reg (toString (vessel_data.imo_number.getD 0)) then "AIS-" ++ mmsi
       else toString (vessel_data.imo_number.getD 0))
    else "AIS-" ++ mmsi
  let imo_number := if pyStartsWith imo0 "AIS-" then aisImoLoop reg imo0 (reg.length + 1) 0 else imo0
  { vessel_name := vessel_name
    imo_number := imo_number
    ais_mmsi := mmsi
    latitude := if truthyQ vessel_data.latitude then vessel_data.latitude else none
    longitude := if truthyQ vessel_data.longitude then vessel_data.longitude else none
    speed := vessel_data.speed      -- guarded by `is not None`
    course := vessel_data.course    -- guarded by `is not None`
    status := if truthyS vessel_data.status then vessel_data.status else none
    destination := if truthyS vessel_data.destination then
        (let d := pySlice (pyStrip (vessel_data.destination.getD "")) 250
         if d ≠ "" then some d else none)
      else none }

/-- The name/data pair built by `prepare_mmsi_update`
for a vessel found by IMO (`none` = key absent from `data`; the
`modified`/`modified_by`/`ais_last_update` bookkeeping keys are not
modelled). -/
structure MmsiUpdate where
  name : String
  ais_mmsi : String
  vessel_name : Option String := none
  ais_last_position_lat : Option ℚ := none
  ais_last_position_lon : Option ℚ := none
  ais_speed : Option ℚ := none
  ais_course : Option ℚ := none
  ais_status : Option String := none
  ais_destination : Option String := none
deriving DecidableEq

/-- `prepare_mmsi_update(mmsi, vessel_data, existing_record)`. -/
def prepare_mmsi_update (mmsi : String) (vessel_data : VesselData)
    (existing_record : VRecord) : MmsiUpdate :=
  { name := existing_record.name
    ais_mmsi := mmsi
    vessel_name := if truthyS vessel_data.vessel_name then
        (let vn := pySlice (pyStrip (vessel_data.vessel_name.getD "")) 250
         if vn ≠ "" ∧ some vn ≠ existing_record.vessel_name then some vn else none)
      else none
    ais_last_position_lat := if truthyQ vessel_data.latitude then vessel_data.latitude else none
    ais_last_position_lon := if truthyQ vessel_data.longitude then vessel_data.longitude else none
    ais_speed := vessel_data.speed      -- guarded by `is not None`
    ais_course := vessel_data.course    -- guarded by `is not None`
    ais_status := if truthyS vessel_data.status then vessel_data.status else none
    ais_destination := if truthyS vessel_data.destination then
        (let d := pySlice (pyStrip (vessel_data.destination.getD "")) 250
         if d ≠ "" then some d else none)
      else none }

/-- Effect of `frappe.db.set_value("Vessels", name, data)` on the registry
projection: every key present in `data` overwrites that column; the stable
`name` identifier of the row is not among the keys and is untouched. -/
def applyMmsiUpdate (r : VRecord) (m : MmsiUpdate) : VRecord :=
  { r with
    ais_mmsi := some m.ais_mmsi
    vessel_name := match m.vessel_name with | some s => some s | none => r.vessel_name
    ais_last_position_lat :=
      match m.ais_last_position_lat with | some q => some q | none => r.ais_last_position_lat
    ais_last_position_lon :=
      match m.ais_last_position_lon with | some q => some q | none => r.ais_last_position_lon }

/-- `existing_vessels.get(mmsi)`: the prefetch dict keyed by `ais_mmsi`. -/
def findByMmsi (reg : List VRecord) (mmsi : String) : Option VRecord :=
  reg.find? (fun r => r.ais_mmsi = some mmsi)

/-- `existing_vessels.get(f"IMO-{imo}")`: rows are indexed under an `IMO-`
key only when `record.imo_number` is truthy and not `AIS-`-prefixed. -/
def findByGenuineImo (reg : List VRecord) (imo : String) : Option VRecord :=
  reg.find? (fun r =>
    truthyS r.imo_number && !(pyStartsWith (r.imo_number.getD "") "AIS-") &&
      decide (r.imo_number = some imo))

/-- The operation the per-vessel body of `update_vessel_ais_batch` emits. -/
inductive BatchOp where
  | update (target : VRecord) (stmt : UpdateStmt)
  | identityMerge (target : VRecord) (upd : MmsiUpdate)
  | insert (row : InsertRow)
  | skip
deriving DecidableEq

/-- The per-vessel body of the loop in `update_vessel_ais_batch`: match by
`mmsi`, else by genuine IMO (which bypasses `should_update_vessel`), else
gate and insert; returns the emitted operation and the new `vessel_cache`. -/
def classify_vessel (reg : List VRecord) (cache : Cache) (current_time : ℚ)
    (vessel_data : VesselData) : BatchOp × Cache :=
  let mmsi := pyStr vessel_data.mmsi
  match findByMmsi reg mmsi with
  | some existing =>
    let g := should_update_vessel mmsi vessel_data (some existing) cache current_time
    (if g.1 then BatchOp.update existing (prepare_vessel_update mmsi vessel_data existing)
     else BatchOp.skip, g.2)
  | none =>
    match (if truthyI vessel_data.imo_number then
        findByGenuineImo reg (toString (vessel_data.imo_number.getD 0)) else none) with
    | some existing =>
      (BatchOp.identityMerge existing (prepare_mmsi_update mmsi vessel_data existing), cache)
    | none =>
      let g := should_update_vessel mmsi vessel_data none cache current_time
      (if g.1 then BatchOp.insert (prepare_vessel_insert reg mmsi vessel_data)
       else BatchOp.skip, g.2)

/-- Outcome of attempting a single `INSERT` against the store. -/
inductive InsResult where
  | ok
  | dupImo                -- "Duplicate entry" mentioning "imo_number"
  | otherErr (msg : String)
deriving DecidableEq

/-- Result of `execute_batch_inserts`: either `frappe.db.commit()` is
reached, with the applied rows and the duplicate-IMO rows that were skipped
and logged, or the transaction is rolled back and the first fatal error is
re-raised, with the rows attempted before stopping. -/
inductive BatchInsertResult (α : Type) where
  | committed (applied skipped : List α)
  | rolledBack (attempted : List α) (err : String)
deriving DecidableEq

/-- `execute_batch_inserts(inserts)`, with the response of the store to each
insert abstracted as `outcome`. -/
def execute_batch_inserts {α : Type} (outcome : α → InsResult) :
    List α → BatchInsertResult α
  | [] => .committed [] []
  | i :: rest =>
    match outcome i with
    | .ok =>
      match execute_batch_inserts outcome rest with
      | .committed ap sk => .committed (i :: ap) sk
      | .rolledBack l e => .rolledBack (i :: l) e
    | .dupImo =>  -- skipped and logged, the loop continues
      match execute_batch_inserts outcome rest with
      | .committed ap sk => .committed ap (i :: sk)
      | .rolledBack l e => .rolledBack (i :: l) e
    | .otherErr m => .rolledBack [i] m

/-! ### Helper lemmas -/

/-- Reading back the key just written by a Python dict assignment. -/
theorem alistGet_alistSet {α : Type} (l : List (String × α)) (k : String) (v : α) :
    alistGet (alistSet l k v) k = some v := by
  induction l with
  | nil => simp [alistGet, alistSet]
  | cons p rest ih =>
    by_cases h : p.1 = k
    · simp [alistGet, alistSet, h]
    · simp [alistGet, alistSet, h, ih]

/-- A dict assignment grows the dict by at most one entry. -/
theorem alistSet_length_le {α : Type} (l : List (String × α)) (k : String) (v : α) :
    (alistSet l k v).length ≤ l.length + 1 := by
  induction l with
  | nil => simp [alistSet]
  | cons p rest ih =>
    by_cases h : p.1 = k
    · simp [alistSet, h]
    · simp only [alistSet, h, if_false, List.length_cons]
      omega

/-- A Python slice `s[:n]` has at most `n` code points. -/
theorem pyLen_pySlice_le (s : String) (n : Nat) : pyLen (pySlice s n) ≤ n := by
  simp only [pyLen, pySlice, List.length_take]
  omega

/-- A list is a `isPrefixOf` of itself followed by anything. -/
theorem isPrefixOf_append_self (l t : List Char) : l.isPrefixOf (l ++ t) = true := by
  induction l with
  | nil => simp
  | cons a as ih => simp [ih]

/-- `(p + s).startswith(p)` always holds. -/
theorem pyStartsWith_append (p s : String) : pyStartsWith (p ++ s) p = true := by
  have hdata : (p ++ s).data = p.data ++ s.data := rfl
  simp only [pyStartsWith, hdata]
  exact isPrefixOf_append_self _ _

/-- The fuelled synthetic-IMO loop returns the first free candidate, as the
Python `while` loop does, whenever that candidate is within the fuel. -/
theorem aisImoLoop_eq (reg : List VRecord) (base : String) :
    ∀ (fuel counter k : Nat), counter ≤ k → k - counter ≤ fuel →
      existsImo reg (aisCand base k) = false →
      (∀ j, counter ≤ j → j < k → existsImo reg (aisCand base j) = true) →
      aisImoLoop reg base fuel counter = aisCand base k := by
  intro fuel
  induction fuel with
  | zero =>
    intro counter k hck hfuel _ _
    have hk : k = counter := by omega
    subst hk
    rfl
  | succ fuel ih =>
    intro counter k hck hfuel hfree htaken
    by_cases hek : counter = k
    · subst hek
      simp [aisImoLoop, hfree]
    · have hlt : counter < k := lt_of_le_of_ne hck hek
      have ht : existsImo reg (aisCand base counter) = true := htaken counter le_rfl hlt
      simp only [aisImoLoop, ht, if_true]
      exact ih (counter + 1) k hlt (by omega) hfree (fun j hj1 hj2 => htaken j (by omega) hj2)

/-! ### Claims -/

/-- C1 inputs: two `PositionReport` frames for the same vessel, the first
carrying `Sog = 12`, the second a partial message without `Sog`. -/
def c1_pr1 : PositionReportMsg :=
  { UserID := some 403456789, Latitude := some 21, Longitude := some 39,
    Sog := some 12, Cog := some 45, NavigationalStatus := some 0 }

/-- C1 second frame (no `Sog` key). -/
def c1_pr2 : PositionReportMsg :=
  { UserID := some 403456789, Latitude := some 22, Longitude := some 39 }

/-- C1: within one flush window, the merge of two queued updates for the same
mmsi is `dict.update`, so the `speed` key of the second frame — present with
value `None` because `position.get(Sog)` returns `None` — erases the non-null
speed 12 of the first frame.  The merged `speed` is `None`, not the
union of non-null fields the specification requires. -/
theorem C1_merge_null_overwrites :
    (normalizePositionReport c1_pr1 {}).speed = some (some 12) ∧
    (normalizePositionReport c1_pr2 {}).speed = some none ∧
    alistGet (enqueue (enqueue [] (normalizePositionReport c1_pr1 {}))
        (normalizePositionReport c1_pr2 {})) "403456789"
      = some (dictUpdate (normalizePositionReport c1_pr1 {}) (normalizePositionReport c1_pr2 {})) ∧
    (dictUpdate (normalizePositionReport c1_pr1 {})
        (normalizePositionReport c1_pr2 {})).speed = some none := by
  refine ⟨by decide, by decide, by decide, by decide⟩

/-- C10: a coordinate equal to `0` is falsy in Python, so
`position.get(Latitude) or metadata.get(latitude)` falls back to the
metadata coordinate, and `if vessel_data.get(latitude):` omits the field on
both the insert and the update write paths (same for longitude). -/
theorem C10_zero_coordinates_absent (p : PositionReportMsg) (m : MetaData)
    (v : VesselData) (mmsi : String) (r : VRecord) (reg : List VRecord) :
    (p.Latitude = some 0 → (normalizePositionReport p m).latitude = some m.latitude) ∧
    (p.Longitude = some 0 → (normalizePositionReport p m).longitude = some m.longitude) ∧
    (v.latitude = some 0 → (prepare_vessel_update mmsi v r).latitude = none) ∧
    (v.longitude = some 0 → (prepare_vessel_update mmsi v r).longitude = none) ∧
    (v.latitude = some 0 → (prepare_vessel_insert reg mmsi v).latitude = none) ∧
    (v.longitude = some 0 → (prepare_vessel_insert reg mmsi v).longitude = none) := by
  refine ⟨?_, ?_, ?_, ?_, ?_, ?_⟩ <;> intro h <;>
    simp [normalizePositionReport, prepare_vessel_update, prepare_vessel_insert,
      pyOrQ, truthyQ, h]

/-- C10 concrete frame: an equator/prime-meridian position report. -/
def c10_p : PositionReportMsg := { Latitude := some 0, Longitude := some 0 }

/-- C10 concrete metadata carrying fallback coordinates. -/
def c10_m : MetaData := { latitude := some 21, longitude := some 39 }

/-- C10 concrete queued update with zero coordinates. -/
def c10_v : VesselData := { mmsi := some 1, latitude := some 0, longitude := some 0 }

/-- C10 concrete existing record. -/
def c10_r : VRecord := { name := "R1" }

/-- Witness for C10 at the concrete zero-coordinate inputs. -/
theorem C10_zero_coordinates_absent_witness :
    (normalizePositionReport c10_p c10_m).latitude = some (some 21) ∧
    (prepare_vessel_update "1" c10_v c10_r).latitude = none ∧
    (prepare_vessel_insert [] "1" c10_v).longitude = none :=
  ⟨(C10_zero_coordinates_absent c10_p c10_m c10_v "1" c10_r []).1 rfl,
   (C10_zero_coordinates_absent c10_p c10_m c10_v "1" c10_r []).2.2.1 rfl,
   (C10_zero_coordinates_absent c10_p c10_m c10_v "1" c10_r []).2.2.2.2.2 rfl⟩

/-- C2 concrete update: a large position jump (Δlat = 5 degrees). -/
def c2_v : VesselData := { mmsi := some 1, latitude := some 5, longitude := some 5 }

/-- C2 concrete existing record (the batch prefetch row has no position
columns, so the deltas are taken against the `.get(..., 0)` default). -/
def c2_r : VRecord := { name := "R1" }

/-- C2 concrete cache: the last accepted write is 10 seconds old. -/
def c2_cache : Cache := [("vessel_update_1", 100)]

/-- Counterexample to C2: at `current_time = 110` the last accepted write is
10 s old (< 30) and the position delta is 5 degrees (> 0.001), yet
`should_update_vessel` returns `false` and records nothing — the 30-second
rate limit returns before the position-delta test is ever reached. -/
theorem C2_cex_rate_limit_blocks_position_delta :
    ((110 : ℚ) - 100 < 30) ∧
    ((1 : ℚ) / 1000 < |(5 : ℚ) - 0|) ∧
    should_update_vessel "1" c2_v (some c2_r) c2_cache 110 = (false, c2_cache) := by
  refine ⟨by norm_num, by norm_num, by decide⟩

/-- C2 amended: the 30-second rate limit is absolute — whenever the cached
timestamp for the mmsi is truthy and younger than 30 seconds, the gate
returns `false` (cache unchanged apart from eviction) regardless of any
position delta; the position-delta rule only applies once that check has
passed. -/
theorem C2_amended_rate_limit_is_absolute (mmsi : String) (u : VesselData) (r : VRecord)
    (c : Cache) (now : ℚ)
    (h1 : truthyQ (alistGet (evictCache c) ("vessel_update_" ++ mmsi)) = true)
    (h2 : qSubLt now ((alistGet (evictCache c) ("vessel_update_" ++ mmsi)).getD 0) 30 1 = true) :
    should_update_vessel mmsi u (some r) c now = (false, evictCache c) := by
  simp only [should_update_vessel]
  rw [if_pos ⟨h1, h2⟩]

/-- Witness for the amended C2 at the concrete inputs of the counterexample. -/
theorem C2_amended_rate_limit_is_absolute_witness :
    should_update_vessel "1" c2_v (some c2_r) c2_cache 110 = (false, evictCache c2_cache) :=
  C2_amended_rate_limit_is_absolute "1" c2_v c2_r c2_cache 110 (by decide) (by decide)

/-- Counterexample to C5: accepting a brand-new vessel (rule 1, no existing
record) writes nothing into `vessel_cache` — the entry for the mmsi is `none`
after the accepting call, not the timestamp of the call. -/
theorem C5_cex_rule1_records_nothing :
    should_update_vessel "7" { mmsi := some 7 } none [] 100 = (true, []) ∧
    alistGet (should_update_vessel "7" { mmsi := some 7 } none [] 100).2 "vessel_update_7" = none :=
  ⟨rfl, rfl⟩

/-- C5 amended: the gate records `current_time` under `vessel_update_<mmsi>`
exactly on accepting calls that have an existing record (position-delta or
forced-refresh acceptance); acceptance of a brand-new vessel returns `true`
with the cache untouched, so it is not rate-limited afterwards. -/
theorem C5_amended_acceptance_recording (mmsi : String) (u : VesselData) (r : VRecord)
    (c : Cache) (now : ℚ)
    (hacc : (should_update_vessel mmsi u (some r) c now).1 = true) :
    alistGet (should_update_vessel mmsi u (some r) c now).2 ("vessel_update_" ++ mmsi) = some now ∧
    should_update_vessel mmsi u none c now = (true, c) := by
  refine ⟨?_, rfl⟩
  simp only [should_update_vessel] at hacc ⊢
  split_ifs at hacc ⊢ <;> simp_all [alistGet_alistSet]

/-- Witness for the amended C5: a forced-refresh acceptance (no prior
timestamp) records `current_time = 100`. -/
theorem C5_amended_acceptance_recording_witness :
    (should_update_vessel "9" {} (some { name := "R9" }) [] 100).1 = true ∧
    alistGet (should_update_vessel "9" {} (some { name := "R9" }) [] 100).2 "vessel_update_9"
      = some 100 :=
  ⟨by decide,
   (C5_amended_acceptance_recording "9" {} { name := "R9" } [] 100 (by decide)).1⟩

/-- `cacheDescLe` is transitive (needed for sortedness of the eviction). -/
theorem cacheDescLe_trans (a b c : String × ℚ) :
    cacheDescLe a b → cacheDescLe b c → cacheDescLe a c := by
  simp only [cacheDescLe, decide_eq_true_eq]
  intro hab hbc
  exact le_trans hbc hab

/-- `cacheDescLe` is total. -/
theorem cacheDescLe_total (a b : String × ℚ) : cacheDescLe a b || cacheDescLe b a := by
  simp only [cacheDescLe]
  rcases le_total b.2 a.2 with h | h <;> simp [h]

/-- C6: once the cache exceeds the 10000-entry ceiling, the eviction block
run at the start of the next state-consulting call keeps exactly the 5000
entries with the greatest timestamps (every kept timestamp is ≥ every
dropped timestamp), all taken from the old cache; the following write
leaves at most 5001 ≤ 10000 entries; and every call with an existing record
first evicts and then at most records the current timestamp. -/
theorem C6_cache_eviction (c : Cache) (k : String) (v : ℚ)
    (h : MAX_CACHE_SIZE < c.length) :
    (evictCache c).length = 5000 ∧
    (∀ p, p ∈ evictCache c → p ∈ c) ∧
    (∀ p, p ∈ evictCache c → ∀ q2, q2 ∈ (c.mergeSort cacheDescLe).drop 5000 → q2.2 ≤ p.2) ∧
    (alistSet (evictCache c) k v).length ≤ MAX_CACHE_SIZE ∧
    (∀ mmsi u r now, (should_update_vessel mmsi u (some r) c now).2 = evictCache c ∨
      (should_update_vessel mmsi u (some r) c now).2 =
        alistSet (evictCache c) ("vessel_update_" ++ mmsi) now) := by
  have hev : evictCache c = (c.mergeSort cacheDescLe).take 5000 := by
    simp [evictCache, h]
  have hlen : (evictCache c).length = 5000 := by
    rw [hev, List.length_take, List.length_mergeSort]
    simp only [MAX_CACHE_SIZE] at h
    omega
  refine ⟨hlen, ?_, ?_, ?_, ?_⟩
  · intro p hp
    rw [hev] at hp
    exact List.mem_mergeSort.mp (List.mem_of_mem_take hp)
  · intro p hp q2 hq2
    have hs : (c.mergeSort cacheDescLe).Pairwise (fun a b => cacheDescLe a b) :=
      List.sorted_mergeSort cacheDescLe_trans cacheDescLe_total c
    rw [← List.take_append_drop 5000 (c.mergeSort cacheDescLe)] at hs
    have hcross := (List.pairwise_append.mp hs).2.2
    rw [hev] at hp
    have := hcross p hp q2 hq2
    simpa [cacheDescLe] using this
  · have := alistSet_length_le (evictCache c) k v
    rw [hlen] at this
    simp only [MAX_CACHE_SIZE]
    omega
  · intro mmsi u r now
    simp only [should_update_vessel]
    split_ifs <;> simp

/-- C6 concrete cache: 10001 distinct keys with increasing timestamps. -/
def c6_cache : Cache := (List.range 10001).map (fun (i : Nat) => (toString i, (i : ℚ)))

/-- Witness for C6 at a cache of 10001 distinct keys. -/
theorem C6_cache_eviction_witness :
    (evictCache c6_cache).length = 5000 ∧
    (alistSet (evictCache c6_cache) "vessel_update_1" 0).length ≤ MAX_CACHE_SIZE :=
  have hlen : MAX_CACHE_SIZE < c6_cache.length := by
    have h1 : c6_cache.length = 10001 := by
      rw [c6_cache, List.length_map, List.length_range]
    rw [h1, MAX_CACHE_SIZE]
    omega
  ⟨(C6_cache_eviction c6_cache "vessel_update_1" 0 hlen).1,
   (C6_cache_eviction c6_cache "vessel_update_1" 0 hlen).2.2.2.1⟩

/-- C7: per-insert failure isolation in `execute_batch_inserts`.  When every
insert in the group either succeeds or hits the duplicate-IMO uniqueness
conflict, the group commits, with exactly the conflicting inserts skipped
(logged) and all others applied.  When some insert fails with any other
error, the first such failure stops the loop: the inserts before it were
attempted, the transaction is rolled back and that error is re-raised. -/
theorem C7_batch_insert_isolation {α : Type} (outcome : α → InsResult) (l : List α)
    (pre post : List α) (b : α) (m : String) :
    ((∀ i, i ∈ l → outcome i = InsResult.ok ∨ outcome i = InsResult.dupImo) →
      execute_batch_inserts outcome l =
        BatchInsertResult.committed (l.filter (fun i => decide (outcome i = InsResult.ok)))
          (l.filter (fun i => decide (outcome i = InsResult.dupImo)))) ∧
    (outcome b = InsResult.otherErr m →
      (∀ i, i ∈ pre → outcome i = InsResult.ok ∨ outcome i = InsResult.dupImo) →
      execute_batch_inserts outcome (pre ++ b :: post) =
        BatchInsertResult.rolledBack (pre ++ [b]) m) := by
  constructor
  · intro hno
    induction l with
    | nil => rfl
    | cons i rest ih =>
      have hi := hno i (List.mem_cons_self i rest)
      have hrest := ih (fun j hj => hno j (List.mem_cons_of_mem i hj))
      rcases hi with hok | hdup
      · simp [execute_batch_inserts, hok, hrest, List.filter_cons]
      · simp [execute_batch_inserts, hdup, hrest, List.filter_cons]
  · intro hb hpre
    induction pre with
    | nil =>
      simp [execute_batch_inserts, hb]
    | cons p rest ih =>
      have hp := hpre p (List.mem_cons_self p rest)
      have hrest := ih (fun j hj => hpre j (List.mem_cons_of_mem p hj))
      rcases hp with hok | hdup
      · simp [execute_batch_inserts, hok, hrest]
      · simp [execute_batch_inserts, hdup, hrest]

/-- C7 concrete store behaviour: insert 0 succeeds, insert 1 is a
duplicate-IMO conflict, insert 2 is a fatal error. -/
def c7_outcome : Nat → InsResult :=
  fun n => if n = 0 then .ok else if n = 1 then .dupImo else .otherErr "deadlock"

/-- Witness for C7: a group with one duplicate commits with that insert
skipped; a group containing a fatal error is rolled back with that error. -/
theorem C7_batch_insert_isolation_witness :
    execute_batch_inserts c7_outcome [0, 1, 0] = BatchInsertResult.committed [0, 0] [1] ∧
    execute_batch_inserts c7_outcome [0, 1, 2, 0] = BatchInsertResult.rolledBack [0, 1, 2] "deadlock" :=
  ⟨(C7_batch_insert_isolation c7_outcome [0, 1, 0] [] [] 0 "x").1 (by decide),
   (C7_batch_insert_isolation c7_outcome [] [0, 1] [0] 2 "deadlock").2 (by decide) (by decide)⟩

/-- C3: resolver precedence of `update_vessel_ais_batch`.  (a) An exact
`ais_mmsi` match yields an update operation on that row (emitted iff the
rate-limit gate passes, `skip` otherwise — never a merge or insert).
(b) Otherwise, a genuine (non-`AIS-`) IMO match yields the identity-merge
operation on that row, and applying it sets the `ais_mmsi` of the row to the
incoming mmsi while leaving its stable `name` identifier unchanged.
(c) Otherwise the result is an insert. -/
theorem C3_resolver_precedence (reg : List VRecord) (cache : Cache) (now : ℚ)
    (u : VesselData) :
    (∀ r, findByMmsi reg (pyStr u.mmsi) = some r →
      (classify_vessel reg cache now u).1 =
        (if (should_update_vessel (pyStr u.mmsi) u (some r) cache now).1 then
          BatchOp.update r (prepare_vessel_update (pyStr u.mmsi) u r)
         else BatchOp.skip)) ∧
    (∀ r, findByMmsi reg (pyStr u.mmsi) = none → truthyI u.imo_number = true →
      findByGenuineImo reg (toString (u.imo_number.getD 0)) = some r →
      (classify_vessel reg cache now u).1 =
        BatchOp.identityMerge r (prepare_mmsi_update (pyStr u.mmsi) u r) ∧
      (applyMmsiUpdate r (prepare_mmsi_update (pyStr u.mmsi) u r)).ais_mmsi
        = some (pyStr u.mmsi) ∧
      (applyMmsiUpdate r (prepare_mmsi_update (pyStr u.mmsi) u r)).name = r.name) ∧
    (findByMmsi reg (pyStr u.mmsi) = none →
      (truthyI u.imo_number = false ∨
        findByGenuineImo reg (toString (u.imo_number.getD 0)) = none) →
      (classify_vessel reg cache now u).1 =
        BatchOp.insert (prepare_vessel_insert reg (pyStr u.mmsi) u)) := by
  refine ⟨?_, ?_, ?_⟩
  · intro r hfind
    simp only [classify_vessel, hfind]
  · intro r hmmsi himo hfind
    refine ⟨?_, rfl, rfl⟩
    simp only [classify_vessel, hmmsi, himo, if_true, hfind]
  · intro hmmsi himo
    rcases himo with himo | himo
    · simp [classify_vessel, hmmsi, himo, should_update_vessel]
    · by_cases ht : truthyI u.imo_number = true
      · simp [classify_vessel, hmmsi, ht, himo, should_update_vessel]
      · simp [classify_vessel, hmmsi, eq_false_of_ne_true ht, should_update_vessel]

/-- C3/C9 concrete registry: one row known under genuine IMO `9123456`
with stale mmsi `111`. -/
def c3_rec : VRecord :=
  { name := "V9123456", ais_mmsi := some "111", imo_number := some "9123456",
    vessel_name := some "Old Name" }

/-- C3/C9 concrete registry. -/
def c3_reg : List VRecord := [c3_rec]

/-- C3 concrete update carrying mmsi `222` and the same genuine IMO. -/
def c3_u : VesselData := { mmsi := some 222, imo_number := some 9123456 }

/-- C3 concrete update matching the registry row by mmsi. -/
def c3_u2 : VesselData := { mmsi := some 111, latitude := some 5, longitude := some 5 }

/-- C3 concrete update matching nothing. -/
def c3_u3 : VesselData := { mmsi := some 333, vessel_name := some "New Ship" }

/-- Witness for C3: the three precedence branches at concrete inputs,
including the IdentityMerge scenario of the specification (registry row with
`imoNumber="9123456"`, `mmsi="111"`; update `mmsi="222"`,
`imoNumber=9123456`). -/
theorem C3_resolver_precedence_witness :
    (classify_vessel c3_reg [] 100 c3_u2).1 =
      (if (should_update_vessel "111" c3_u2 (some c3_rec) [] 100).1 then
        BatchOp.update c3_rec (prepare_vessel_update "111" c3_u2 c3_rec)
       else BatchOp.skip) ∧
    (classify_vessel c3_reg [] 100 c3_u).1 =
      BatchOp.identityMerge c3_rec (prepare_mmsi_update "222" c3_u c3_rec) ∧
    (applyMmsiUpdate c3_rec (prepare_mmsi_update "222" c3_u c3_rec)).ais_mmsi
      = some "222" ∧
    (applyMmsiUpdate c3_rec (prepare_mmsi_update "222" c3_u c3_rec)).name
      = "V9123456" ∧
    (classify_vessel c3_reg [] 100 c3_u3).1 =
      BatchOp.insert (prepare_vessel_insert c3_reg "333" c3_u3) :=
  ⟨(C3_resolver_precedence c3_reg [] 100 c3_u2).1 c3_rec (by decide),
   ((C3_resolver_precedence c3_reg [] 100 c3_u).2.1 c3_rec
      (by decide) (by decide) (by decide)).1,
   ((C3_resolver_precedence c3_reg [] 100 c3_u).2.1 c3_rec
      (by decide) (by decide) (by decide)).2.1,
   ((C3_resolver_precedence c3_reg [] 100 c3_u).2.1 c3_rec
      (by decide) (by decide) (by decide)).2.2,
   (C3_resolver_precedence c3_reg [] 100 c3_u3).2.2 (by decide) (Or.inl (by decide))⟩

/-- C9: an update whose mmsi matches nothing but whose genuine IMO matches a
registry row bypasses `should_update_vessel` entirely: for every cache state
and current time, the result is the identity-merge operation and the cache —
hence the rate-limit state — is returned unchanged. -/
theorem C9_imo_merge_bypasses_gate (reg : List VRecord) (cache : Cache) (now : ℚ)
    (u : VesselData) (r : VRecord)
    (hmmsi : findByMmsi reg (pyStr u.mmsi) = none)
    (himo : truthyI u.imo_number = true)
    (hfind : findByGenuineImo reg (toString (u.imo_number.getD 0)) = some r) :
    classify_vessel reg cache now u =
      (BatchOp.identityMerge r (prepare_mmsi_update (pyStr u.mmsi) u r), cache) := by
  simp only [classify_vessel, hmmsi, himo, if_true, hfind]

/-- C9 concrete cache: the rate-limit entry of the matched vessel is only
2 seconds old, yet the merge is still emitted and the cache untouched. -/
def c9_cache : Cache := [("vessel_update_222", 98), ("vessel_update_111", 98)]

/-- Witness for C9: even with rate-limit entries 2 seconds old for both the
stale and the incoming mmsi, the IMO-matched update becomes an identity
merge and the cache is unchanged. -/
theorem C9_imo_merge_bypasses_gate_witness :
    classify_vessel c3_reg c9_cache 100 c3_u =
      (BatchOp.identityMerge c3_rec (prepare_mmsi_update "222" c3_u c3_rec),
        c9_cache) :=
  C9_imo_merge_bypasses_gate c3_reg c9_cache 100 c3_u c3_rec
    (by decide) (by decide) (by decide)

/-- C4: insert-path IMO assignment of `prepare_vessel_insert`.
(1) A genuine IMO not present in the registry is used as-is.
(2) A genuine IMO that collides falls back to `AIS-<mmsi>` (when free).
(3) With no genuine IMO, `AIS-<mmsi>` is used (when free).
(4) When `AIS-<mmsi>` and its first `k-1` suffixed variants are taken, the
loop appends incrementing numeric suffixes and returns the first free
candidate `AIS-<mmsi>-k`.
(5) Inserting with no IMO into an empty registry yields `AIS-403456789`. -/
theorem C4_insert_imo_assignment (reg : List VRecord) (mmsi : String) (v : VesselData)
    (k : Nat) :
    (truthyI v.imo_number = true →
      existsImo reg (toString (v.imo_number.getD 0)) = false →
      pyStartsWith (toString (v.imo_number.getD 0)) "AIS-" = false →
      (prepare_vessel_insert reg mmsi v).imo_number = toString (v.imo_number.getD 0)) ∧
    (truthyI v.imo_number = true →
      existsImo reg (toString (v.imo_number.getD 0)) = true →
      existsImo reg ("AIS-" ++ mmsi) = false →
      (prepare_vessel_insert reg mmsi v).imo_number = "AIS-" ++ mmsi) ∧
    (truthyI v.imo_number = false →
      existsImo reg ("AIS-" ++ mmsi) = false →
      (prepare_vessel_insert reg mmsi v).imo_number = "AIS-" ++ mmsi) ∧
    (truthyI v.imo_number = false →
      k ≤ reg.length + 1 →
      existsImo reg (aisCand ("AIS-" ++ mmsi) k) = false →
      (∀ j, j < k → existsImo reg (aisCand ("AIS-" ++ mmsi) j) = true) →
      (prepare_vessel_insert reg mmsi v).imo_number = aisCand ("AIS-" ++ mmsi) k) ∧
    (prepare_vessel_insert [] "403456789" {}).imo_number = "AIS-403456789" := by
  refine ⟨?_, ?_, ?_, ?_, by decide⟩
  · intro himo hfree hpre
    simp [prepare_vessel_insert, himo, hfree, hpre]
  · intro himo htaken hbase
    simp only [prepare_vessel_insert, himo, htaken, if_true, pyStartsWith_append]
    have h0 : aisCand ("AIS-" ++ mmsi) 0 = "AIS-" ++ mmsi := rfl
    rw [show reg.length + 1 = Nat.succ reg.length from rfl]
    simp [aisImoLoop, h0, hbase]
  · intro himo hbase
    simp only [prepare_vessel_insert, himo, Bool.false_eq_true, if_false,
      pyStartsWith_append]
    rw [show reg.length + 1 = Nat.succ reg.length from rfl]
    simp [aisImoLoop, aisCand, hbase]
  · intro himo hk hfree htaken
    simp only [prepare_vessel_insert, himo, Bool.false_eq_true, if_false,
      pyStartsWith_append]
    exact aisImoLoop_eq reg ("AIS-" ++ mmsi) (reg.length + 1) 0 k (Nat.zero_le k)
      (by omega) hfree (fun j _ hj => htaken j hj)

/-- C4 concrete update with a fresh genuine IMO. -/
def c4_v : VesselData := { mmsi := some 999, imo_number := some 9123456 }

/-- C4 concrete registry owning synthetic IMO `AIS-555` already. -/
def c4_reg : List VRecord := [{ name := "W1", ais_mmsi := some "554", imo_number := some "AIS-555" }]

/-- C4 concrete update without IMO. -/
def c4_v2 : VesselData := { mmsi := some 555 }

/-- Witness for C4: a fresh genuine IMO is kept; a colliding genuine IMO
falls back to `AIS-999` (the conflict scenario of the specification); a taken
`AIS-555` gets suffix `-1`. -/
theorem C4_insert_imo_assignment_witness :
    (prepare_vessel_insert [] "999" c4_v).imo_number = toString ((c4_v.imo_number).getD 0) ∧
    (prepare_vessel_insert c3_reg "999" c4_v).imo_number = "AIS-" ++ "999" ∧
    (prepare_vessel_insert c4_reg "555" c4_v2).imo_number = aisCand ("AIS-" ++ "555") 1 :=
  ⟨(C4_insert_imo_assignment [] "999" c4_v 0).1 (by decide) (by decide) (by decide),
   (C4_insert_imo_assignment c3_reg "999" c4_v 0).2.1 (by decide) (by decide) (by decide),
   (C4_insert_imo_assignment c4_reg "555" c4_v2 1).2.2.2.1 (by decide) (by decide)
     (by decide) (by decide)⟩

/-- C8 amended theorem: the vessel name actually stored is
`strip()[:140]` of the incoming name on the direct-update path and on the
insert path (for a supplied name with non-empty strip), but
`strip()[:250]` on the identity-merge path. -/
theorem C8_amended_name_caps (mmsi : String) (v : VesselData) (r : VRecord)
    (reg : List VRecord) (s : String) :
    ((prepare_vessel_update mmsi v r).new_vessel_name = some s →
      s = pySlice (pyStrip (v.vessel_name.getD "")) 140 ∧ pyLen s ≤ 140) ∧
    (truthyS v.vessel_name = true → pyStrip (v.vessel_name.getD "") ≠ "" →
      (prepare_vessel_insert reg mmsi v).vessel_name
        = pySlice (pyStrip (v.vessel_name.getD "")) 140) ∧
    ((prepare_mmsi_update mmsi v r).vessel_name = some s →
      s = pySlice (pyStrip (v.vessel_name.getD "")) 250) := by
  refine ⟨?_, ?_, ?_⟩
  · intro hs
    simp only [prepare_vessel_update] at hs
    split at hs
    · cases hs
      exact ⟨rfl, pyLen_pySlice_le _ _⟩
    · cases hs
  · intro htr hst
    have hraw : (if truthyS v.vessel_name = true then v.vessel_name.getD "" else "")
        = v.vessel_name.getD "" := by rw [if_pos htr]
    have hne : v.vessel_name.getD "" ≠ "" := by
      intro h0
      rw [h0] at hst
      exact hst rfl
    simp only [prepare_vessel_insert, hraw, hne, if_true, hst, if_false]
    simp [hne, hst]
  · intro hs
    simp only [prepare_mmsi_update] at hs
    split at hs
    · split at hs
      · cases hs; rfl
      · cases hs
    · cases hs

/-- C8 concrete incoming name of 150 characters (no surrounding blanks). -/
def c8_name : String := String.mk (List.replicate 150 'A')

/-- C8 concrete update carrying the long name. -/
def c8_v : VesselData := { mmsi := some 222, imo_number := some 9123456, vessel_name := some c8_name }

set_option maxRecDepth 40000 in
/-- Counterexample to C8: on the identity-merge write path
(`prepare_mmsi_update`) the stored vessel name is capped at 250, not 140 —
a 150-character incoming name is stored whole, exceeding the claimed cap. -/
theorem C8_cex_merge_path_caps_at_250 :
    (prepare_mmsi_update "222" c8_v c3_rec).vessel_name = some c8_name ∧
    140 < pyLen c8_name := by
  constructor
  · decide
  · decide

set_option maxRecDepth 40000 in
/-- Witness for the amended C8 at concrete inputs: update path stores
`strip()[:140]` (length 140), merge path stores `strip()[:250]`. -/
theorem C8_amended_name_caps_witness :
    ((prepare_vessel_update "222" c8_v { name := "E1" }).new_vessel_name
        = some (pySlice (pyStrip (c8_v.vessel_name.getD "")) 140) ∧
      pyLen (pySlice (pyStrip (c8_v.vessel_name.getD "")) 140) ≤ 140) ∧
    (prepare_vessel_insert [] "222" c8_v).vessel_name
      = pySlice (pyStrip (c8_v.vessel_name.getD "")) 140 ∧
    (prepare_mmsi_update "222" c8_v c3_rec).vessel_name
      = some (pySlice (pyStrip (c8_v.vessel_name.getD "")) 250) := by
  refine ⟨?_, ?_, ?_⟩
  · have h := (C8_amended_name_caps "222" c8_v { name := "E1" } []
      (pySlice (pyStrip (c8_v.vessel_name.getD "")) 140)).1 (by decide)
    exact ⟨rfl, h.2⟩
  · exact (C8_amended_name_caps "222" c8_v { name := "E1" } [] "").2.1
      (by decide) (by decide)
  · have h := (C8_amended_name_caps "222" c8_v c3_rec []
      (pySlice (pyStrip (c8_v.vessel_name.getD "")) 250)).2.2 (by decide)
    exact congrArg some h ▸ (by decide : (prepare_mmsi_update "222" c8_v c3_rec).vessel_name
      = some (pySlice (pyStrip (c8_v.vessel_name.getD "")) 250))

end VesselTracker
